import Mathlib

/-!
Verification development for the cryptowatch Go client library.

The library has two components: a response unwrapper (`request`) that
performs the HTTP GET, parses the body as generic JSON and classifies the
HTTP status, and one endpoint function per REST route that formats a URL,
calls `request` and decodes the extracted `result` payload.

Modelling conventions (shallow embedding of the Go source):
  * JSON numbers are modelled exactly as rationals; the client performs no
    floating-point arithmetic, it only transports decoded numbers.
  * A response body is represented by the outcome of `json.Unmarshal` on
    its bytes: either `malformed msg` (the bytes are not valid JSON, with
    the decode error message) or `value j` (the parsed JSON value).
  * Go maps built by `json.Unmarshal` bind each key to its last occurrence
    in the text, so envelope lookups use last-wins association lookup.
  * `json.Marshal` of a value that came out of `json.Unmarshal` into an
    empty interface always succeeds and renders object keys sorted and
    deduplicated; `canon` models that round trip.
  * A failed Go type assertion is a run-time panic, modelled by the
    `GoResult.panic` constructor (messages are representative, not the
    exact runtime text).
  * `encoding/json` records the first type error and keeps decoding the
    remaining fields or elements, so decoders return the (possibly
    partially updated) target value together with an optional first error.
-/

namespace Cryptowatch

/-- JSON values as produced by Go `encoding/json` when decoding into an
empty interface. An object carries its key/value pairs in the order they
appear in the serialized text. -/
inductive Json where
  | null : Json
  | bool (b : Bool) : Json
  | num (q : ℚ) : Json
  | str (s : String) : Json
  | arr (elems : List Json) : Json
  | obj (fields : List (String × Json)) : Json
deriving Repr

/-- Kind of a JSON value, used in decode error messages. -/
def jsonKind : Json → String
  | .null => "null"
  | .bool _ => "bool"
  | .num _ => "number"
  | .str _ => "string"
  | .arr _ => "array"
  | .obj _ => "object"

/-- True exactly on JSON objects (the shape `data.(map[string]interface)` accepts). -/
def Json.isObjB : Json → Bool
  | .obj _ => true
  | _ => false

/-- True exactly on JSON numbers. -/
def Json.isNumB : Json → Bool
  | .num _ => true
  | _ => false

/-- True exactly on an optional JSON value holding a string (the shape the
`results["error"].(string)` assertion accepts). -/
def isStrOpt : Option Json → Bool
  | some (.str _) => true
  | _ => false

/-- Whether the first character list is a prefix of the second. -/
def startsSeq : List Char → List Char → Bool
  | [], _ => true
  | _ :: _, [] => false
  | a :: as, b :: bs => a.toNat == b.toNat && startsSeq as bs

/-- Whether the first character list occurs contiguously in the second. -/
def containsSeq (pat : List Char) : List Char → Bool
  | [] => pat.isEmpty
  | c :: rest => startsSeq pat (c :: rest) || containsSeq pat rest

/-- Go map lookup on the field list of the object: the map built by
`json.Unmarshal` binds a key to its last occurrence in the text. -/
def lookupLast (fields : List (String × Json)) (k : String) : Option Json :=
  fields.foldl (fun acc kv => if kv.1 == k then some kv.2 else acc) none

/-- Set a key in an association list, replacing an existing binding. -/
def setA {α : Type} (l : List (String × α)) (k : String) (v : α) : List (String × α) :=
  match l with
  | [] => [(k, v)]
  | (k2, v2) :: rest => if k2 == k then (k, v) :: rest else (k2, v2) :: setA rest k v

/-- Lookup in an association list (first binding; lists built by `setA`
or `insertField` have distinct keys). -/
def getA {α : Type} (l : List (String × α)) (k : String) : Option α :=
  match l with
  | [] => none
  | (k2, v2) :: rest => if k2 == k then some v2 else getA rest k

/-- Lexicographic strict order on character lists by code point; on UTF-8
encoded text this agrees with the byte-wise Go string order, which
`json.Marshal` uses to sort map keys. -/
def strLtB : List Char → List Char → Bool
  | [], [] => false
  | [], _ :: _ => true
  | _ :: _, [] => false
  | a :: as, b :: bs => Nat.blt a.toNat b.toNat || (a.toNat == b.toNat && strLtB as bs)

/-- ASCII lower-casing of one character. -/
def lowerChar (c : Char) : Char :=
  if 64 < c.toNat && c.toNat < 91 then Char.ofNat (c.toNat + 32) else c

/-- ASCII lower-casing of a string. Struct field tags in the source are all
ASCII lowercase, so comparing the lower-cased JSON key with the tag models
the Go field matching (exact match first, case-insensitive fallback). -/
def lowerStr (s : String) : String :=
  String.mk (s.data.map lowerChar)

/-- Insert into a key-sorted association list, replacing an existing
binding (a later insert wins, like writing to a Go map). -/
def insertField (k : String) (v : Json) : List (String × Json) → List (String × Json)
  | [] => [(k, v)]
  | (k2, v2) :: rest =>
    if k == k2 then (k, v) :: rest
    else if strLtB k.data k2.data then (k, v) :: (k2, v2) :: rest
    else (k2, v2) :: insertField k v rest

/-- Deduplicate (last occurrence wins, as in a Go map) and key-sort the
fields of an object, as `json.Marshal` renders a `map[string]interface` value. -/
def sortDedup (fs : List (String × Json)) : List (String × Json) :=
  fs.foldl (fun acc kv => insertField kv.1 kv.2 acc) []

mutual

/-- The `json.Marshal` / `json.Unmarshal` round trip applied by `request`
to the extracted `result` value: object keys become sorted and
deduplicated (last binding wins), everything else is preserved. -/
def canon : Json → Json
  | .null => .null
  | .bool b => .bool b
  | .num q => .num q
  | .str s => .str s
  | .arr xs => .arr (canonArr xs)
  | .obj fs => .obj (sortDedup (canonFields fs))

/-- Pointwise `canon` on array elements. -/
def canonArr : List Json → List Json
  | [] => []
  | x :: xs => canon x :: canonArr xs

/-- Pointwise `canon` on the values of the fields of an object. -/
def canonFields : List (String × Json) → List (String × Json)
  | [] => []
  | (k, v) :: fs => (k, canon v) :: canonFields fs

end

/-- Outcome of running a Go function: a returned value or a run-time panic. -/
inductive GoResult (α : Type) where
  | ret (val : α) : GoResult α
  | panic (msg : String) : GoResult α
deriving Repr, DecidableEq

/-- True when a `GoResult` is a normal return (not a panic). -/
def GoResult.isRet {α : Type} : GoResult α → Bool
  | .ret _ => true
  | .panic _ => false

/-- Errors returned by the client, tagged with the construction site that
produced them: transport failures surfaced verbatim, `json.Unmarshal`
decode errors, the 429 rate-limit branch, and the generic non-200 branch
that relays the `error` string of the envelope. -/
inductive GoErr where
  | transport (msg : String) : GoErr
  | decode (msg : String) : GoErr
  | rateLimit (msg : String) : GoErr
  | api (msg : String) : GoErr
deriving DecidableEq, Repr

/-- A received response body, represented by the outcome of
`json.Unmarshal` on its bytes. -/
inductive Body where
  | malformed (msg : String) : Body
  | value (j : Json) : Body

/-- Input to `request`: either the GET itself failed, reading the body
failed, or a status code and body were received. -/
inductive HttpOutcome where
  | netErr (msg : String) : HttpOutcome
  | readErr (status : Nat) (msg : String) : HttpOutcome
  | success (status : Nat) (body : Body) : HttpOutcome

/-- The Go `string(i)` conversion from an integer: the UTF-8 encoding of the
code point `i`, or the replacement character when `i` is not a valid code
point. (This is a rune conversion, not decimal formatting.) -/
def goStringOfInt (n : Int) : String :=
  if 0 ≤ n ∧ n < 1114112 ∧ ¬(55296 ≤ n ∧ n ≤ 57343) then String.mk [Char.ofNat n.toNat]
  else "�"

/-- The message built by the 429 branch of `request` at wall-clock minute
`minute`: `"Too Many Requests. Allowance resets in " + string(60-minute) + " minutes."`. -/
def msg429 (minute : Nat) : String :=
  "Too Many Requests. Allowance resets in " ++ goStringOfInt (60 - (minute : Int)) ++ " minutes."

/-- The response unwrapper `request` of cryptowatch.go. `minute` is
`time.Now().Minute()`. Steps, as in the source: transport errors surface
verbatim; a body that is not valid JSON returns the unmarshal error; the
parsed value is type-asserted to a JSON object (panics otherwise); status
429 builds the rate-limit message; any other non-200 status type-asserts
the `error` field of the envelope to a string (panics when absent or
non-string) and relays it; on 200 the `result` field (or JSON null when
absent) is re-marshalled and returned for endpoint decoding. -/
def request (minute : Nat) (h : HttpOutcome) : GoResult (Option Json × Option GoErr) :=
  match h with
  | .netErr m => .ret (none, some (.transport m))
  | .readErr _ m => .ret (none, some (.transport m))
  | .success status body =>
    match body with
    | .malformed m => .ret (none, some (.decode m))
    | .value j =>
      match j with
      | .obj fields =>
        if status == 429 then
          .ret (none, some (.rateLimit (msg429 minute)))
        else if status != 200 then
          match lookupLast fields "error" with
          | some (.str s) => .ret (none, some (.api s))
          | _ => .panic "interface conversion: error field is not a string"
        else
          .ret (some (canon ((lookupLast fields "result").getD .null)), none)
      | _ => .panic "interface conversion: response is not a JSON object"

/-- Keep the first decode error: `encoding/json` records the earliest
type error and keeps decoding the remaining fields and elements. -/
def saveErr (old e : Option String) : Option String :=
  match old with
  | some m => some m
  | none => e

/-- Standard `encoding/json` type-error message shape. -/
def typeErr (j : Json) (tn : String) : String :=
  "json: cannot unmarshal " ++ jsonKind j ++ " into Go value of type " ++ tn

/-- Go json decode of a value into a `float64` target. JSON null is a
no-op; a number is stored; anything else is a type error that leaves the
target unchanged. -/
def decFloat (j : Json) (cur : ℚ) : ℚ × Option String :=
  match j with
  | .null => (cur, none)
  | .num q => (q, none)
  | _ => (cur, some (typeErr j "float64"))

/-- Go json decode of a value into a `string` target. -/
def decString (j : Json) (cur : String) : String × Option String :=
  match j with
  | .null => (cur, none)
  | .str s => (s, none)
  | _ => (cur, some (typeErr j "string"))

/-- Go json decode of a value into a `bool` target. -/
def decBool (j : Json) (cur : Bool) : Bool × Option String :=
  match j with
  | .null => (cur, none)
  | .bool b => (b, none)
  | _ => (cur, some (typeErr j "bool"))

/-- Go json decode of a value into an `int` target. A number with a
fractional part is a type error. (Go also rejects integral numbers
written with a fraction or exponent and overflowing literals; number
lexemes and overflow are below the granularity of this model and no
claim depends on them.) -/
def decInt (j : Json) (cur : Int) : Int × Option String :=
  match j with
  | .null => (cur, none)
  | .num q => if q.den == 1 then (q.num, none) else (cur, some (typeErr j "int"))
  | _ => (cur, some (typeErr j "int"))

/-- Go json decode of a value into a slice target with element decoder
`dec`: a JSON array decodes element-wise into a fresh slice (each element
starting from the zero value `zero`), recording the first element error
and continuing; null is a no-op; anything else is a type error. -/
def decListT {α : Type} (dec : Json → α → α × Option String) (zero : α) (tn : String)
    (j : Json) (cur : List α) : List α × Option String :=
  match j with
  | .null => (cur, none)
  | .arr xs =>
    xs.foldl (fun acc x =>
      let ve := dec x zero
      (acc.1 ++ [ve.1], saveErr acc.2 ve.2)) ([], none)
  | _ => (cur, some (typeErr j tn))

/-- One entry of a Go json map decode: decode the entry value starting
from the zero value, store it under the key (overwriting an earlier
binding), and keep the first error. -/
def decMapStep {α : Type} (dec : Json → α → α × Option String) (zero : α)
    (acc : List (String × α) × Option String) (kv : String × Json) :
    List (String × α) × Option String :=
  let ve := dec kv.2 zero
  (setA acc.1 kv.1 ve.1, saveErr acc.2 ve.2)

/-- Go json decode of a value into a `map[string]T` target with element
decoder `dec`: a JSON object decodes entry-wise (later duplicate keys
overwrite earlier ones), each entry value starting from the zero value,
recording the first entry error and continuing; null is a no-op. -/
def decMapT {α : Type} (dec : Json → α → α × Option String) (zero : α) (tn : String)
    (j : Json) (cur : List (String × α)) : List (String × α) × Option String :=
  match j with
  | .null => (cur, none)
  | .obj fs => fs.foldl (decMapStep dec zero) (cur, none)
  | _ => (cur, some (typeErr j tn))

/-- Struct `AssetMarket` of cryptowatch.go. -/
structure AssetMarket where
  exchange : String
  pair : String
  active : Bool
  route : String
deriving Repr, DecidableEq

/-- Zero value of `AssetMarket`. -/
def AssetMarket.zero : AssetMarket := ⟨"", "", false, ""⟩

/-- Go json decode into an `AssetMarket` struct: each object key is
matched (case-insensitively) against the field tags, unknown keys are
ignored, field type errors are recorded and decoding continues. -/
def decAssetMarket (j : Json) (cur : AssetMarket) : AssetMarket × Option String :=
  match j with
  | .null => (cur, none)
  | .obj fs =>
    fs.foldl (fun acc kv =>
      let a := acc.1
      let k := lowerStr kv.1
      if k == "exchange" then
        let ve := decString kv.2 a.exchange
        ({a with exchange := ve.1}, saveErr acc.2 ve.2)
      else if k == "pair" then
        let ve := decString kv.2 a.pair
        ({a with pair := ve.1}, saveErr acc.2 ve.2)
      else if k == "active" then
        let ve := decBool kv.2 a.active
        ({a with active := ve.1}, saveErr acc.2 ve.2)
      else if k == "route" then
        let ve := decString kv.2 a.route
        ({a with route := ve.1}, saveErr acc.2 ve.2)
      else acc) (cur, none)
  | _ => (cur, some (typeErr j "cryptowatch.AssetMarket"))

/-- Struct `Asset` of cryptowatch.go. -/
structure Asset where
  symbol : String
  name : String
  fiat : Bool
  route : String
deriving Repr, DecidableEq

/-- Zero value of `Asset`. -/
def Asset.zero : Asset := ⟨"", "", false, ""⟩

/-- Go json decode into an `Asset` struct. -/
def decAsset (j : Json) (cur : Asset) : Asset × Option String :=
  match j with
  | .null => (cur, none)
  | .obj fs =>
    fs.foldl (fun acc kv =>
      let a := acc.1
      let k := lowerStr kv.1
      if k == "symbol" then
        let ve := decString kv.2 a.symbol
        ({a with symbol := ve.1}, saveErr acc.2 ve.2)
      else if k == "name" then
        let ve := decString kv.2 a.name
        ({a with name := ve.1}, saveErr acc.2 ve.2)
      else if k == "fiat" then
        let ve := decBool kv.2 a.fiat
        ({a with fiat := ve.1}, saveErr acc.2 ve.2)
      else if k == "route" then
        let ve := decString kv.2 a.route
        ({a with route := ve.1}, saveErr acc.2 ve.2)
      else acc) (cur, none)
  | _ => (cur, some (typeErr j "cryptowatch.Asset"))

/-- The anonymous `Markets` struct nested in `DetailedAsset`. -/
structure DAMarkets where
  base : List AssetMarket
  quote : List AssetMarket
deriving Repr, DecidableEq

/-- Zero value of `DAMarkets`. -/
def DAMarkets.zero : DAMarkets := ⟨[], []⟩

/-- Go json decode into the nested `Markets` struct of `DetailedAsset`. -/
def decDAMarkets (j : Json) (cur : DAMarkets) : DAMarkets × Option String :=
  match j with
  | .null => (cur, none)
  | .obj fs =>
    fs.foldl (fun acc kv =>
      let a := acc.1
      let k := lowerStr kv.1
      if k == "base" then
        let ve := decListT decAssetMarket AssetMarket.zero "[]cryptowatch.AssetMarket" kv.2 a.base
        ({a with base := ve.1}, saveErr acc.2 ve.2)
      else if k == "quote" then
        let ve := decListT decAssetMarket AssetMarket.zero "[]cryptowatch.AssetMarket" kv.2 a.quote
        ({a with quote := ve.1}, saveErr acc.2 ve.2)
      else acc) (cur, none)
  | _ => (cur, some (typeErr j "struct"))

/-- Struct `DetailedAsset` of cryptowatch.go. -/
structure DetailedAsset where
  id : Int
  symbol : String
  name : String
  fiat : Bool
  markets : DAMarkets
deriving Repr, DecidableEq

/-- Zero value of `DetailedAsset`. -/
def DetailedAsset.zero : DetailedAsset := ⟨0, "", "", false, DAMarkets.zero⟩

/-- Go json decode into a `DetailedAsset` struct. -/
def decDetailedAsset (j : Json) (cur : DetailedAsset) : DetailedAsset × Option String :=
  match j with
  | .null => (cur, none)
  | .obj fs =>
    fs.foldl (fun acc kv =>
      let a := acc.1
      let k := lowerStr kv.1
      if k == "id" then
        let ve := decInt kv.2 a.id
        ({a with id := ve.1}, saveErr acc.2 ve.2)
      else if k == "symbol" then
        let ve := decString kv.2 a.symbol
        ({a with symbol := ve.1}, saveErr acc.2 ve.2)
      else if k == "name" then
        let ve := decString kv.2 a.name
        ({a with name := ve.1}, saveErr acc.2 ve.2)
      else if k == "fiat" then
        let ve := decBool kv.2 a.fiat
        ({a with fiat := ve.1}, saveErr acc.2 ve.2)
      else if k == "markets" then
        let ve := decDAMarkets kv.2 a.markets
        ({a with markets := ve.1}, saveErr acc.2 ve.2)
      else acc) (cur, none)
  | _ => (cur, some (typeErr j "cryptowatch.DetailedAsset"))

/-- Struct `PairData` of cryptowatch.go. -/
structure PairData where
  symbol : String
  name : String
  isFiat : Bool
  route : String
deriving Repr, DecidableEq

/-- Zero value of `PairData`. -/
def PairData.zero : PairData := ⟨"", "", false, ""⟩

/-- Go json decode into a `PairData` struct (the `IsFiat` field has json
tag `isFiat`, matched case-insensitively). -/
def decPairData (j : Json) (cur : PairData) : PairData × Option String :=
  match j with
  | .null => (cur, none)
  | .obj fs =>
    fs.foldl (fun acc kv =>
      let a := acc.1
      let k := lowerStr kv.1
      if k == "symbol" then
        let ve := decString kv.2 a.symbol
        ({a with symbol := ve.1}, saveErr acc.2 ve.2)
      else if k == "name" then
        let ve := decString kv.2 a.name
        ({a with name := ve.1}, saveErr acc.2 ve.2)
      else if k == "isfiat" then
        let ve := decBool kv.2 a.isFiat
        ({a with isFiat := ve.1}, saveErr acc.2 ve.2)
      else if k == "route" then
        let ve := decString kv.2 a.route
        ({a with route := ve.1}, saveErr acc.2 ve.2)
      else acc) (cur, none)
  | _ => (cur, some (typeErr j "cryptowatch.PairData"))

/-- Struct `Pair` of cryptowatch.go. -/
structure Pair where
  symbol : String
  id : Int
  base : PairData
  quote : PairData
  route : String
deriving Repr, DecidableEq

/-- Zero value of `Pair`. -/
def Pair.zero : Pair := ⟨"", 0, PairData.zero, PairData.zero, ""⟩

/-- Go json decode into a `Pair` struct. -/
def decPair (j : Json) (cur : Pair) : Pair × Option String :=
  match j with
  | .null => (cur, none)
  | .obj fs =>
    fs.foldl (fun acc kv =>
      let a := acc.1
      let k := lowerStr kv.1
      if k == "symbol" then
        let ve := decString kv.2 a.symbol
        ({a with symbol := ve.1}, saveErr acc.2 ve.2)
      else if k == "id" then
        let ve := decInt kv.2 a.id
        ({a with id := ve.1}, saveErr acc.2 ve.2)
      else if k == "base" then
        let ve := decPairData kv.2 a.base
        ({a with base := ve.1}, saveErr acc.2 ve.2)
      else if k == "quote" then
        let ve := decPairData kv.2 a.quote
        ({a with quote := ve.1}, saveErr acc.2 ve.2)
      else if k == "route" then
        let ve := decString kv.2 a.route
        ({a with route := ve.1}, saveErr acc.2 ve.2)
      else acc) (cur, none)
  | _ => (cur, some (typeErr j "cryptowatch.Pair"))

/-- Struct `PairMarket` of cryptowatch.go. -/
structure PairMarket where
  symbol : String
  id : Int
  base : PairData
  quote : PairData
  route : String
  markets : List AssetMarket
deriving Repr, DecidableEq

/-- Zero value of `PairMarket`. -/
def PairMarket.zero : PairMarket := ⟨"", 0, PairData.zero, PairData.zero, "", []⟩

/-- Go json decode into a `PairMarket` struct. -/
def decPairMarket (j : Json) (cur : PairMarket) : PairMarket × Option String :=
  match j with
  | .null => (cur, none)
  | .obj fs =>
    fs.foldl (fun acc kv =>
      let a := acc.1
      let k := lowerStr kv.1
      if k == "symbol" then
        let ve := decString kv.2 a.symbol
        ({a with symbol := ve.1}, saveErr acc.2 ve.2)
      else if k == "id" then
        let ve := decInt kv.2 a.id
        ({a with id := ve.1}, saveErr acc.2 ve.2)
      else if k == "base" then
        let ve := decPairData kv.2 a.base
        ({a with base := ve.1}, saveErr acc.2 ve.2)
      else if k == "quote" then
        let ve := decPairData kv.2 a.quote
        ({a with quote := ve.1}, saveErr acc.2 ve.2)
      else if k == "route" then
        let ve := decString kv.2 a.route
        ({a with route := ve.1}, saveErr acc.2 ve.2)
      else if k == "markets" then
        let ve := decListT decAssetMarket AssetMarket.zero "[]cryptowatch.AssetMarket" kv.2 a.markets
        ({a with markets := ve.1}, saveErr acc.2 ve.2)
      else acc) (cur, none)
  | _ => (cur, some (typeErr j "cryptowatch.PairMarket"))

/-- Struct `GeneralExchange` of cryptowatch.go. -/
structure GeneralExchange where
  symbol : String
  name : String
  active : Bool
  route : String
deriving Repr, DecidableEq

/-- Zero value of `GeneralExchange`. -/
def GeneralExchange.zero : GeneralExchange := ⟨"", "", false, ""⟩

/-- Go json decode into a `GeneralExchange` struct. -/
def decGeneralExchange (j : Json) (cur : GeneralExchange) : GeneralExchange × Option String :=
  match j with
  | .null => (cur, none)
  | .obj fs =>
    fs.foldl (fun acc kv =>
      let a := acc.1
      let k := lowerStr kv.1
      if k == "symbol" then
        let ve := decString kv.2 a.symbol
        ({a with symbol := ve.1}, saveErr acc.2 ve.2)
      else if k == "name" then
        let ve := decString kv.2 a.name
        ({a with name := ve.1}, saveErr acc.2 ve.2)
      else if k == "active" then
        let ve := decBool kv.2 a.active
        ({a with active := ve.1}, saveErr acc.2 ve.2)
      else if k == "route" then
        let ve := decString kv.2 a.route
        ({a with route := ve.1}, saveErr acc.2 ve.2)
      else acc) (cur, none)
  | _ => (cur, some (typeErr j "cryptowatch.GeneralExchange"))

/-- The anonymous `Routes` struct nested in `DetailedExchange`. -/
structure DERoutes where
  markets : String
deriving Repr, DecidableEq

/-- Zero value of `DERoutes`. -/
def DERoutes.zero : DERoutes := ⟨""⟩

/-- Go json decode into the nested `Routes` struct of `DetailedExchange`. -/
def decDERoutes (j : Json) (cur : DERoutes) : DERoutes × Option String :=
  match j with
  | .null => (cur, none)
  | .obj fs =>
    fs.foldl (fun acc kv =>
      let a := acc.1
      if lowerStr kv.1 == "markets" then
        let ve := decString kv.2 a.markets
        (DERoutes.mk ve.1, saveErr acc.2 ve.2)
      else acc) (cur, none)
  | _ => (cur, some (typeErr j "struct"))

/-- Struct `DetailedExchange` of cryptowatch.go. -/
structure DetailedExchange where
  id : Int
  name : String
  active : Bool
  routes : DERoutes
deriving Repr, DecidableEq

/-- Zero value of `DetailedExchange`. -/
def DetailedExchange.zero : DetailedExchange := ⟨0, "", false, DERoutes.zero⟩

/-- Go json decode into a `DetailedExchange` struct. -/
def decDetailedExchange (j : Json) (cur : DetailedExchange) : DetailedExchange × Option String :=
  match j with
  | .null => (cur, none)
  | .obj fs =>
    fs.foldl (fun acc kv =>
      let a := acc.1
      let k := lowerStr kv.1
      if k == "id" then
        let ve := decInt kv.2 a.id
        ({a with id := ve.1}, saveErr acc.2 ve.2)
      else if k == "name" then
        let ve := decString kv.2 a.name
        ({a with name := ve.1}, saveErr acc.2 ve.2)
      else if k == "active" then
        let ve := decBool kv.2 a.active
        ({a with active := ve.1}, saveErr acc.2 ve.2)
      else if k == "routes" then
        let ve := decDERoutes kv.2 a.routes
        ({a with routes := ve.1}, saveErr acc.2 ve.2)
      else acc) (cur, none)
  | _ => (cur, some (typeErr j "cryptowatch.DetailedExchange"))

/-- Struct `GeneralMarket` of cryptowatch.go. -/
structure GeneralMarket where
  exchange : String
  pair : String
  active : Bool
  route : String
deriving Repr, DecidableEq

/-- Zero value of `GeneralMarket`. -/
def GeneralMarket.zero : GeneralMarket := ⟨"", "", false, ""⟩

/-- Go json decode into a `GeneralMarket` struct. -/
def decGeneralMarket (j : Json) (cur : GeneralMarket) : GeneralMarket × Option String :=
  match j with
  | .null => (cur, none)
  | .obj fs =>
    fs.foldl (fun acc kv =>
      let a := acc.1
      let k := lowerStr kv.1
      if k == "exchange" then
        let ve := decString kv.2 a.exchange
        ({a with exchange := ve.1}, saveErr acc.2 ve.2)
      else if k == "pair" then
        let ve := decString kv.2 a.pair
        ({a with pair := ve.1}, saveErr acc.2 ve.2)
      else if k == "active" then
        let ve := decBool kv.2 a.active
        ({a with active := ve.1}, saveErr acc.2 ve.2)
      else if k == "route" then
        let ve := decString kv.2 a.route
        ({a with route := ve.1}, saveErr acc.2 ve.2)
      else acc) (cur, none)
  | _ => (cur, some (typeErr j "cryptowatch.GeneralMarket"))

/-- The anonymous `Routes` struct nested in `DetailedMarket`. -/
structure DMRoutes where
  price : String
  summary : String
  orderbook : String
  trades : String
  ohlc : String
deriving Repr, DecidableEq

/-- Zero value of `DMRoutes`. -/
def DMRoutes.zero : DMRoutes := ⟨"", "", "", "", ""⟩

/-- Go json decode into the nested `Routes` struct of `DetailedMarket`. -/
def decDMRoutes (j : Json) (cur : DMRoutes) : DMRoutes × Option String :=
  match j with
  | .null => (cur, none)
  | .obj fs =>
    fs.foldl (fun acc kv =>
      let a := acc.1
      let k := lowerStr kv.1
      if k == "price" then
        let ve := decString kv.2 a.price
        ({a with price := ve.1}, saveErr acc.2 ve.2)
      else if k == "summary" then
        let ve := decString kv.2 a.summary
        ({a with summary := ve.1}, saveErr acc.2 ve.2)
      else if k == "orderbook" then
        let ve := decString kv.2 a.orderbook
        ({a with orderbook := ve.1}, saveErr acc.2 ve.2)
      else if k == "trades" then
        let ve := decString kv.2 a.trades
        ({a with trades := ve.1}, saveErr acc.2 ve.2)
      else if k == "ohlc" then
        let ve := decString kv.2 a.ohlc
        ({a with ohlc := ve.1}, saveErr acc.2 ve.2)
      else acc) (cur, none)
  | _ => (cur, some (typeErr j "struct"))

/-- Struct `DetailedMarket` of cryptowatch.go. -/
structure DetailedMarket where
  exchange : String
  pair : String
  active : Bool
  routes : DMRoutes
deriving Repr, DecidableEq

/-- Zero value of `DetailedMarket`. -/
def DetailedMarket.zero : DetailedMarket := ⟨"", "", false, DMRoutes.zero⟩

/-- Go json decode into a `DetailedMarket` struct. -/
def decDetailedMarket (j : Json) (cur : DetailedMarket) : DetailedMarket × Option String :=
  match j with
  | .null => (cur, none)
  | .obj fs =>
    fs.foldl (fun acc kv =>
      let a := acc.1
      let k := lowerStr kv.1
      if k == "exchange" then
        let ve := decString kv.2 a.exchange
        ({a with exchange := ve.1}, saveErr acc.2 ve.2)
      else if k == "pair" then
        let ve := decString kv.2 a.pair
        ({a with pair := ve.1}, saveErr acc.2 ve.2)
      else if k == "active" then
        let ve := decBool kv.2 a.active
        ({a with active := ve.1}, saveErr acc.2 ve.2)
      else if k == "routes" then
        let ve := decDMRoutes kv.2 a.routes
        ({a with routes := ve.1}, saveErr acc.2 ve.2)
      else acc) (cur, none)
  | _ => (cur, some (typeErr j "cryptowatch.DetailedMarket"))

/-- The anonymous `Change` struct nested in `Summary.Price`. -/
structure SummaryChange where
  percentage : ℚ
  absolute : ℚ
deriving Repr, DecidableEq

/-- Zero value of `SummaryChange`. -/
def SummaryChange.zero : SummaryChange := ⟨0, 0⟩

/-- Go json decode into the nested `Change` struct of `Summary`. -/
def decSummaryChange (j : Json) (cur : SummaryChange) : SummaryChange × Option String :=
  match j with
  | .null => (cur, none)
  | .obj fs =>
    fs.foldl (fun acc kv =>
      let a := acc.1
      let k := lowerStr kv.1
      if k == "percentage" then
        let ve := decFloat kv.2 a.percentage
        ({a with percentage := ve.1}, saveErr acc.2 ve.2)
      else if k == "absolute" then
        let ve := decFloat kv.2 a.absolute
        ({a with absolute := ve.1}, saveErr acc.2 ve.2)
      else acc) (cur, none)
  | _ => (cur, some (typeErr j "struct"))

/-- The anonymous `Price` struct nested in `Summary`. -/
structure SummaryPrice where
  last : ℚ
  high : ℚ
  low : ℚ
  change : SummaryChange
deriving Repr, DecidableEq

/-- Zero value of `SummaryPrice`. -/
def SummaryPrice.zero : SummaryPrice := ⟨0, 0, 0, SummaryChange.zero⟩

/-- Go json decode into the nested `Price` struct of `Summary`. -/
def decSummaryPrice (j : Json) (cur : SummaryPrice) : SummaryPrice × Option String :=
  match j with
  | .null => (cur, none)
  | .obj fs =>
    fs.foldl (fun acc kv =>
      let a := acc.1
      let k := lowerStr kv.1
      if k == "last" then
        let ve := decFloat kv.2 a.last
        ({a with last := ve.1}, saveErr acc.2 ve.2)
      else if k == "high" then
        let ve := decFloat kv.2 a.high
        ({a with high := ve.1}, saveErr acc.2 ve.2)
      else if k == "low" then
        let ve := decFloat kv.2 a.low
        ({a with low := ve.1}, saveErr acc.2 ve.2)
      else if k == "change" then
        let ve := decSummaryChange kv.2 a.change
        ({a with change := ve.1}, saveErr acc.2 ve.2)
      else acc) (cur, none)
  | _ => (cur, some (typeErr j "struct"))

/-- Struct `Summary` of cryptowatch.go. -/
structure Summary where
  price : SummaryPrice
  volume : ℚ
deriving Repr, DecidableEq

/-- Zero value of `Summary`. -/
def Summary.zero : Summary := ⟨SummaryPrice.zero, 0⟩

/-- Go json decode into a `Summary` struct. -/
def decSummary (j : Json) (cur : Summary) : Summary × Option String :=
  match j with
  | .null => (cur, none)
  | .obj fs =>
    fs.foldl (fun acc kv =>
      let a := acc.1
      let k := lowerStr kv.1
      if k == "price" then
        let ve := decSummaryPrice kv.2 a.price
        ({a with price := ve.1}, saveErr acc.2 ve.2)
      else if k == "volume" then
        let ve := decFloat kv.2 a.volume
        ({a with volume := ve.1}, saveErr acc.2 ve.2)
      else acc) (cur, none)
  | _ => (cur, some (typeErr j "cryptowatch.Summary"))

/-- Type `Trade` of cryptowatch.go: `[]float64`. -/
abbrev Trade := List ℚ

/-- Go json decode into a `Trade` (`[]float64`). -/
def decTrade (j : Json) (cur : Trade) : Trade × Option String :=
  decListT decFloat 0 "[]float64" j cur

/-- Struct `MarketOrderBook` of cryptowatch.go. -/
structure MarketOrderBook where
  asks : List (List ℚ)
  bids : List (List ℚ)
deriving Repr, DecidableEq

/-- Zero value of `MarketOrderBook`. -/
def MarketOrderBook.zero : MarketOrderBook := ⟨[], []⟩

/-- Go json decode into a `MarketOrderBook` struct. -/
def decMarketOrderBook (j : Json) (cur : MarketOrderBook) : MarketOrderBook × Option String :=
  match j with
  | .null => (cur, none)
  | .obj fs =>
    fs.foldl (fun acc kv =>
      let a := acc.1
      let k := lowerStr kv.1
      if k == "asks" then
        let ve := decListT (decListT decFloat 0 "[]float64") [] "[][]float64" kv.2 a.asks
        ({a with asks := ve.1}, saveErr acc.2 ve.2)
      else if k == "bids" then
        let ve := decListT (decListT decFloat 0 "[]float64") [] "[][]float64" kv.2 a.bids
        ({a with bids := ve.1}, saveErr acc.2 ve.2)
      else acc) (cur, none)
  | _ => (cur, some (typeErr j "cryptowatch.MarketOrderBook"))

/-- Type `OHLC` of cryptowatch.go: `map[string][][]float64`, as an
association list. -/
abbrev OHLC := List (String × List (List ℚ))

/-- Go json decode into an `OHLC` map. -/
def decOHLC (j : Json) (cur : OHLC) : OHLC × Option String :=
  decMapT (decListT (decListT decFloat 0 "[]float64") [] "[][]float64") [] "cryptowatch.OHLC" j cur

/-- Type `AggregratePrice` of cryptowatch.go: `map[string]float64`, as an
association list. -/
abbrev AggregratePrice := List (String × ℚ)

/-- Go json decode into a `map[string]float64`. -/
def decMapFloat (j : Json) (cur : AggregratePrice) : AggregratePrice × Option String :=
  decMapT decFloat 0 "map[string]float64" j cur

/-- Type `AggregrateSummary` of cryptowatch.go: `map[string]Summary`, as an
association list. -/
abbrev AggregrateSummary := List (String × Summary)

/-- Go json decode into a `map[string]Summary`. -/
def decAggregrateSummary (j : Json) (cur : AggregrateSummary) : AggregrateSummary × Option String :=
  decMapT decSummary Summary.zero "cryptowatch.AggregrateSummary" j cur

/-- The fixed base URL of cryptowatch.go. -/
def base : String := "https://api.cryptowat.ch/"

/-- The `indexes` route table of cryptowatch.go. -/
def indexesList : List (String × String) :=
  [("Assets", base ++ "assets"),
   ("Asset", base ++ "assets/%v"),
   ("Pairs", base ++ "pairs"),
   ("Pair", base ++ "pairs/%v"),
   ("Exchanges", base ++ "exchanges"),
   ("Exchange", base ++ "exchanges/%v"),
   ("Markets", base ++ "markets"),
   ("Market", base ++ "markets/%v/%v"),
   ("MarketPrice", base ++ "markets/%v/%v/price"),
   ("MarketSummary", base ++ "markets/%v/%v/summary"),
   ("MarketTrades", base ++ "markets/%v/%v/trades"),
   ("MarketOrderBook", base ++ "markets/%v/%v/orderbook"),
   ("MarketOHLC", base ++ "markets/%v/%v/ohlc"),
   ("AggregratePrices", base ++ "markets/prices"),
   ("AggregrateSummaries", base ++ "markets/summaries")]

/-- Go map indexing `indexes[k]` (a missing key would yield the zero
string; all call sites use present keys). -/
def indexes (k : String) : String :=
  (getA indexesList k).getD ""

/-- Character-level engine of `fmt.Sprintf` for templates whose only verbs
are `%v` applied to string arguments, which is all the source uses: each
`%v` consumes the next argument; a leftover verb renders as
`%!v(MISSING)`; leftover arguments are reported in an `%!(EXTRA ...)`
suffix (every call site passes exactly as many arguments as verbs). This
helper renders the leftover-argument suffix. -/
def extraTail : List String → List Char
  | [] => []
  | a :: rest => ("%!(EXTRA string=" ++ a ++ ")").data ++ extraTail rest

/-- Substitute string arguments for the `%v` verbs of a template. -/
def substVerbs : List Char → List String → List Char
  | [], args => extraTail args
  | '%' :: 'v' :: t, a :: rest => a.data ++ substVerbs t rest
  | '%' :: 'v' :: t, [] => "%!v(MISSING)".data ++ substVerbs t []
  | c :: t, rest => c :: substVerbs t rest

/-- Model of `fmt.Sprintf` on a `%v`-only template with string arguments. -/
def goSprintf (template : String) (args : List String) : String :=
  String.mk (substVerbs template.data args)

/-- URL built by endpoint `Assets`. -/
def Assets_url : String := indexes "Assets"

/-- URL built by endpoint `AssetMarkets`. -/
def AssetMarkets_url (asset : String) : String := goSprintf (indexes "Asset") [asset]

/-- URL built by endpoint `Pairs`. -/
def Pairs_url : String := indexes "Pairs"

/-- URL built by endpoint `PairMarkets`. -/
def PairMarkets_url (pair : String) : String := goSprintf (indexes "Pair") [pair]

/-- URL built by endpoint `Exchanges`. -/
def Exchanges_url : String := indexes "Exchanges"

/-- URL built by endpoint `Exchange`. -/
def Exchange_url (name : String) : String := goSprintf (indexes "Exchange") [name]

/-- URL built by endpoint `Markets`. -/
def Markets_url : String := indexes "Markets"

/-- URL built by endpoint `Market`. -/
def Market_url (exchange pair : String) : String := goSprintf (indexes "Market") [exchange, pair]

/-- URL built by endpoint `MarketPrice`. -/
def MarketPrice_url (exchange pair : String) : String :=
  goSprintf (indexes "MarketPrice") [exchange, pair]

/-- URL built by endpoint `MarketSummary`. -/
def MarketSummary_url (exchange pair : String) : String :=
  goSprintf (indexes "MarketSummary") [exchange, pair]

/-- URL built by endpoint `Trades`. -/
def Trades_url (exchange pair : String) : String :=
  goSprintf (indexes "MarketTrades") [exchange, pair]

/-- URL built by endpoint `OrderBook`. -/
def OrderBook_url (exchange pair : String) : String :=
  goSprintf (indexes "MarketOrderBook") [exchange, pair]

/-- URL built by endpoint `Ohlc`. -/
def Ohlc_url (exchange pair : String) : String :=
  goSprintf (indexes "MarketOHLC") [exchange, pair]

/-- URL built by endpoint `AggregratePrices`. -/
def AggregratePrices_url : String := indexes "AggregratePrices"

/-- URL built by endpoint `AggregrateSummaries`. -/
def AggregrateSummaries_url : String := indexes "AggregrateSummaries"

/-- Endpoint `Assets` of cryptowatch.go, applied to the outcome of its GET.
Note the source discards the return value of `json.Unmarshal` here (the
only endpoint that does), so a decode failure leaves `err` nil. -/
def Assets (minute : Nat) (h : HttpOutcome) : GoResult (List Asset × Option GoErr) :=
  match request minute h with
  | .panic m => .panic m
  | .ret (some res, _) => .ret ((decListT decAsset Asset.zero "[]cryptowatch.Asset" res []).1, none)
  | .ret (none, err) => .ret ([], err)

/-- Endpoint `AssetMarkets` of cryptowatch.go, applied to the outcome of
its GET: when `request` yields a payload, `err` is overwritten by the
`json.Unmarshal` outcome. -/
def AssetMarkets (asset : String) (minute : Nat) (h : HttpOutcome) :
    GoResult (DetailedAsset × Option GoErr) :=
  match request minute h with
  | .panic m => .panic m
  | .ret (some res, _) =>
    let ve := decDetailedAsset res DetailedAsset.zero
    .ret (ve.1, ve.2.map GoErr.decode)
  | .ret (none, err) => .ret (DetailedAsset.zero, err)

/-- Endpoint `Pairs` of cryptowatch.go, applied to the outcome of its GET. -/
def Pairs (minute : Nat) (h : HttpOutcome) : GoResult (List Pair × Option GoErr) :=
  match request minute h with
  | .panic m => .panic m
  | .ret (some res, _) =>
    let ve := decListT decPair Pair.zero "[]cryptowatch.Pair" res []
    .ret (ve.1, ve.2.map GoErr.decode)
  | .ret (none, err) => .ret ([], err)

/-- Endpoint `PairMarkets` of cryptowatch.go, applied to the outcome of its GET. -/
def PairMarkets (pair : String) (minute : Nat) (h : HttpOutcome) :
    GoResult (PairMarket × Option GoErr) :=
  match request minute h with
  | .panic m => .panic m
  | .ret (some res, _) =>
    let ve := decPairMarket res PairMarket.zero
    .ret (ve.1, ve.2.map GoErr.decode)
  | .ret (none, err) => .ret (PairMarket.zero, err)

/-- Endpoint `Exchanges` of cryptowatch.go, applied to the outcome of its GET. -/
def Exchanges (minute : Nat) (h : HttpOutcome) : GoResult (List GeneralExchange × Option GoErr) :=
  match request minute h with
  | .panic m => .panic m
  | .ret (some res, _) =>
    let ve := decListT decGeneralExchange GeneralExchange.zero "[]cryptowatch.GeneralExchange" res []
    .ret (ve.1, ve.2.map GoErr.decode)
  | .ret (none, err) => .ret ([], err)

/-- Endpoint `Exchange` of cryptowatch.go, applied to the outcome of its GET. -/
def Exchange (name : String) (minute : Nat) (h : HttpOutcome) :
    GoResult (DetailedExchange × Option GoErr) :=
  match request minute h with
  | .panic m => .panic m
  | .ret (some res, _) =>
    let ve := decDetailedExchange res DetailedExchange.zero
    .ret (ve.1, ve.2.map GoErr.decode)
  | .ret (none, err) => .ret (DetailedExchange.zero, err)

/-- Endpoint `Markets` of cryptowatch.go, applied to the outcome of its GET. -/
def Markets (minute : Nat) (h : HttpOutcome) : GoResult (List GeneralMarket × Option GoErr) :=
  match request minute h with
  | .panic m => .panic m
  | .ret (some res, _) =>
    let ve := decListT decGeneralMarket GeneralMarket.zero "[]cryptowatch.GeneralMarket" res []
    .ret (ve.1, ve.2.map GoErr.decode)
  | .ret (none, err) => .ret ([], err)

/-- Endpoint `Market` of cryptowatch.go, applied to the outcome of its GET. -/
def Market (exchange pair : String) (minute : Nat) (h : HttpOutcome) :
    GoResult (DetailedMarket × Option GoErr) :=
  match request minute h with
  | .panic m => .panic m
  | .ret (some res, _) =>
    let ve := decDetailedMarket res DetailedMarket.zero
    .ret (ve.1, ve.2.map GoErr.decode)
  | .ret (none, err) => .ret (DetailedMarket.zero, err)

/-- Endpoint `MarketPrice` of cryptowatch.go, applied to the outcome of its
GET: the payload decodes into a `map[string]float64` and `price` is the
entry at key `"price"` (the Go zero value 0 when the key is absent); when
the decode fails the price variable keeps its zero value. -/
def MarketPrice (exchange pair : String) (minute : Nat) (h : HttpOutcome) :
    GoResult (ℚ × Option GoErr) :=
  match request minute h with
  | .panic m => .panic m
  | .ret (some res, _) =>
    let ve := decMapFloat res []
    match ve.2 with
    | none => .ret ((getA ve.1 "price").getD 0, none)
    | some e => .ret (0, some (.decode e))
  | .ret (none, err) => .ret (0, err)

/-- Endpoint `MarketSummary` of cryptowatch.go, applied to the outcome of its GET. -/
def MarketSummary (exchange pair : String) (minute : Nat) (h : HttpOutcome) :
    GoResult (Summary × Option GoErr) :=
  match request minute h with
  | .panic m => .panic m
  | .ret (some res, _) =>
    let ve := decSummary res Summary.zero
    .ret (ve.1, ve.2.map GoErr.decode)
  | .ret (none, err) => .ret (Summary.zero, err)

/-- Endpoint `Trades` of cryptowatch.go, applied to the outcome of its GET. -/
def Trades (exchange pair : String) (minute : Nat) (h : HttpOutcome) :
    GoResult (List Trade × Option GoErr) :=
  match request minute h with
  | .panic m => .panic m
  | .ret (some res, _) =>
    let ve := decListT decTrade [] "[]cryptowatch.Trade" res []
    .ret (ve.1, ve.2.map GoErr.decode)
  | .ret (none, err) => .ret ([], err)

/-- Endpoint `OrderBook` of cryptowatch.go, applied to the outcome of its GET. -/
def OrderBook (exchange pair : String) (minute : Nat) (h : HttpOutcome) :
    GoResult (MarketOrderBook × Option GoErr) :=
  match request minute h with
  | .panic m => .panic m
  | .ret (some res, _) =>
    let ve := decMarketOrderBook res MarketOrderBook.zero
    .ret (ve.1, ve.2.map GoErr.decode)
  | .ret (none, err) => .ret (MarketOrderBook.zero, err)

/-- Endpoint `Ohlc` of cryptowatch.go, applied to the outcome of its GET. -/
def Ohlc (exchange pair : String) (minute : Nat) (h : HttpOutcome) :
    GoResult (OHLC × Option GoErr) :=
  match request minute h with
  | .panic m => .panic m
  | .ret (some res, _) =>
    let ve := decOHLC res []
    .ret (ve.1, ve.2.map GoErr.decode)
  | .ret (none, err) => .ret ([], err)

/-- Endpoint `AggregratePrices` of cryptowatch.go, applied to the outcome of its GET. -/
def AggregratePrices (minute : Nat) (h : HttpOutcome) :
    GoResult (AggregratePrice × Option GoErr) :=
  match request minute h with
  | .panic m => .panic m
  | .ret (some res, _) =>
    let ve := decMapFloat res []
    .ret (ve.1, ve.2.map GoErr.decode)
  | .ret (none, err) => .ret ([], err)

/-- Endpoint `AggregrateSummaries` of cryptowatch.go, applied to the outcome of its GET. -/
def AggregrateSummaries (minute : Nat) (h : HttpOutcome) :
    GoResult (AggregrateSummary × Option GoErr) :=
  match request minute h with
  | .panic m => .panic m
  | .ret (some res, _) =>
    let ve := decAggregrateSummary res []
    .ret (ve.1, ve.2.map GoErr.decode)
  | .ret (none, err) => .ret ([], err)

/-- Strings built from equal character lists are equal. -/
theorem strmkCong (x y : List Char) (h : x = y) : String.mk x = String.mk y := congrArg _ h

/-- A string starting with a character is not empty, whatever is appended. -/
theorem strAppendNeNil (c : Char) (rest : List Char) (s t : String) :
    String.mk (c :: rest) ++ s ++ t ≠ String.mk [] := by
  obtain ⟨ls⟩ := s
  obtain ⟨lt⟩ := t
  intro h
  rw [show String.mk (c :: rest) ++ String.mk ls ++ String.mk lt =
      String.mk (((c :: rest) ++ ls) ++ lt) from rfl] at h
  injection h with h2
  simp at h2

/-- The 429 message is never the empty string. -/
theorem msg429_ne_empty (minute : Nat) : msg429 minute ≠ "" := by
  unfold msg429
  generalize goStringOfInt (60 - (minute : Int)) = s
  exact strAppendNeNil 'T' _ s " minutes."

/-- Recording no error keeps the accumulated error. -/
theorem saveErr_none (old : Option String) : saveErr old none = old := by
  cases old <;> rfl

/-- Membership after a sorted-insert: the element is the inserted binding
or was already present. -/
theorem mem_insertField {k : String} {v : Json} {kv : String × Json} :
    ∀ {l : List (String × Json)}, kv ∈ insertField k v l → kv = (k, v) ∨ kv ∈ l
  | [], h => by simpa [insertField] using h
  | (k2, v2) :: tl, h => by
    unfold insertField at h
    split_ifs at h with h1 h2
    · rcases List.mem_cons.mp h with h3 | h3
      · exact Or.inl h3
      · exact Or.inr (List.mem_cons_of_mem _ h3)
    · rcases List.mem_cons.mp h with h3 | h3
      · exact Or.inl h3
      · exact Or.inr h3
    · rcases List.mem_cons.mp h with h3 | h3
      · exact Or.inr (by simp [h3])
      · rcases mem_insertField h3 with h4 | h4
        · exact Or.inl h4
        · exact Or.inr (List.mem_cons_of_mem _ h4)

/-- Membership after folding sorted-inserts over a list of fields. -/
theorem mem_foldl_insertField {kv : String × Json} :
    ∀ (fs : List (String × Json)) {acc : List (String × Json)},
      kv ∈ fs.foldl (fun acc kv2 => insertField kv2.1 kv2.2 acc) acc → kv ∈ acc ∨ kv ∈ fs
  | [], _, h => Or.inl h
  | (k2, v2) :: tl, acc, h => by
    rcases mem_foldl_insertField tl h with h3 | h3
    · rcases mem_insertField h3 with h4 | h4
      · exact Or.inr (by simp [h4])
      · exact Or.inl h4
    · exact Or.inr (List.mem_cons_of_mem _ h3)

/-- Every binding of the deduplicated sorted field list was a binding of
the original field list. -/
theorem mem_sortDedup {kv : String × Json} {fs : List (String × Json)}
    (h : kv ∈ sortDedup fs) : kv ∈ fs := by
  rcases mem_foldl_insertField fs h with h2 | h2
  · simp at h2
  · exact h2

/-- Every binding of `canonFields fs` is the `canon` of a binding of `fs`
under the same key. -/
theorem mem_canonFields {kv : String × Json} :
    ∀ {fs : List (String × Json)}, kv ∈ canonFields fs → ∃ v0, (kv.1, v0) ∈ fs ∧ kv.2 = canon v0
  | [], h => by simp [canonFields] at h
  | (k2, v2) :: tl, h => by
    rw [canonFields] at h
    rcases List.mem_cons.mp h with h3 | h3
    · exact ⟨v2, by simp [h3], by simp [h3]⟩
    · rcases mem_canonFields h3 with ⟨v0, hv0, hc⟩
      exact ⟨v0, List.mem_cons_of_mem _ hv0, hc⟩

/-- Reading `getA` at a key is unchanged by `setA` at a different key. -/
theorem getA_setA_ne {α : Type} {k k2 : String} (v : α) (h : k ≠ k2) :
    ∀ (l : List (String × α)), getA (setA l k2 v) k = getA l k
  | [] => by simp [setA, getA, h.symm]
  | (k3, v3) :: tl => by
    unfold setA
    by_cases h3 : k3 == k2
    · have hk3 : k3 = k2 := by simpa using h3
      simp [h3, getA, hk3, h.symm]
    · simp only [h3]
      unfold getA
      by_cases h4 : k3 == k
      · simp [h4]
      · simp [h4, getA_setA_ne v h tl]

/-- Folding error-free map entries preserves the accumulated error. -/
theorem foldl_decMapStep_snd {α : Type} (dec : Json → α → α × Option String) (zero : α) :
    ∀ {L : List (String × Json)} {m : List (String × α)} {e0 : Option String},
      (∀ kv ∈ L, (dec kv.2 zero).2 = none) →
      (L.foldl (decMapStep dec zero) (m, e0)).2 = e0
  | [], _, _, _ => rfl
  | kv :: tl, m, e0, h => by
    have h1 : (dec kv.2 zero).2 = none := h kv (by simp)
    have h2 : decMapStep dec zero (m, e0) kv = (setA m kv.1 (dec kv.2 zero).1, e0) := by
      simp [decMapStep, h1, saveErr_none]
    rw [List.foldl_cons, h2]
    exact foldl_decMapStep_snd dec zero (fun kv2 hm => h kv2 (List.mem_cons_of_mem _ hm))

/-- Folding map entries whose keys all differ from `k` leaves the entry of
the accumulated map at `k` unchanged. -/
theorem getA_foldl_decMapStep {α : Type} (dec : Json → α → α × Option String) (zero : α)
    {k : String} :
    ∀ {L : List (String × Json)} {m : List (String × α)} {e0 : Option String},
      (∀ kv ∈ L, kv.1 ≠ k) →
      getA (L.foldl (decMapStep dec zero) (m, e0)).1 k = getA m k
  | [], _, _, _ => rfl
  | kv :: tl, m, e0, h => by
    rw [List.foldl_cons]
    have h1 : k ≠ kv.1 := (h kv (by simp)).symm
    calc getA ((tl.foldl (decMapStep dec zero) (decMapStep dec zero (m, e0) kv))).1 k
        = getA (decMapStep dec zero (m, e0) kv).1 k :=
          getA_foldl_decMapStep dec zero (fun kv2 hm => h kv2 (List.mem_cons_of_mem _ hm))
      _ = getA m k := getA_setA_ne _ h1 m

/-- C1 counterexample: with HTTP status 200 and response body `[]` — valid
JSON whose top-level value is not a JSON object — `request` does not
return a decode error with a nil result: it panics at the
`data.(map[string]interface)` type assertion instead of returning. -/
theorem c1_counterexample :
    request 0 (.success 200 (.value (.arr []))) =
      .panic "interface conversion: response is not a JSON object" ∧
    (request 0 (.success 200 (.value (.arr [])))).isRet = false :=
  ⟨rfl, rfl⟩

/-- C1 (amended): for every HTTP status, a response body that is not valid
JSON makes `request` return the decode error and a nil result; but a body
that is valid JSON whose top-level value is not a JSON object makes
`request` panic at the type assertion rather than return an error value. -/
theorem c1_amended :
    (∀ (status minute : Nat) (m : String),
      request minute (.success status (.malformed m)) = .ret (none, some (.decode m))) ∧
    (∀ (status minute : Nat) (j : Json), j.isObjB = false →
      request minute (.success status (.value j)) =
        .panic "interface conversion: response is not a JSON object") := by
  refine ⟨fun status minute m => rfl, fun status minute j hj => ?_⟩
  cases j <;> first | rfl | simp [Json.isObjB] at hj

/-- C1 witness: the amended statement evaluated at status 503 with an
invalid body and with the non-object body `3`. -/
theorem c1_amended_witness :
    request 7 (.success 503 (.malformed "invalid character x")) =
      .ret (none, some (.decode "invalid character x")) ∧
    request 7 (.success 503 (.value (.num 3))) =
      .panic "interface conversion: response is not a JSON object" :=
  ⟨c1_amended.1 503 7 "invalid character x", c1_amended.2 503 7 (.num 3) rfl⟩

/-- C2: for every response with status other than 200 and other than 429
whose body is a JSON object binding the field `error` to the string
"foo", `request` returns an API error whose message is exactly "foo" and
a nil result. -/
theorem c2_api_error_message (status minute : Nat) (fields : List (String × Json))
    (h200 : status ≠ 200) (h429 : status ≠ 429)
    (herr : lookupLast fields "error" = some (.str "foo")) :
    request minute (.success status (.value (.obj fields))) =
      .ret (none, some (.api "foo")) := by
  have h1 : (status == 429) = false := by simp [h429]
  have h2 : (status != 200) = true := by simp [h200]
  simp [request, h1, h2, herr]

/-- C2 witness: status 500 with body binding `error` to "foo". -/
theorem c2_api_error_message_witness :
    request 0 (.success 500 (.value (.obj [("error", .str "foo")]))) =
      .ret (none, some (.api "foo")) :=
  c2_api_error_message 500 0 [("error", .str "foo")] (by decide) (by decide) rfl

/-- C3: every 429 response whose body parses to a JSON object yields the
rate-limit error and a nil result, regardless of the fields of the object (in
particular of any `error` field), and the message is non-empty. -/
theorem c3_rate_limit (minute : Nat) (fields : List (String × Json)) :
    request minute (.success 429 (.value (.obj fields))) =
      .ret (none, some (.rateLimit (msg429 minute))) ∧ msg429 minute ≠ "" :=
  ⟨rfl, msg429_ne_empty minute⟩

/-- C4: at wall-clock minute 15 a 429 response produces the message
"Too Many Requests. Allowance resets in - minutes.": the Go conversion
`string(60-15)` yields the rune U+002D ("-"), not the decimal string
"45", so the message does not contain the decimal rendering of
60 - minute as the claim requires. -/
theorem c4_rate_limit_message_not_decimal :
    request 15 (.success 429 (.value (.obj []))) =
      .ret (none, some (.rateLimit "Too Many Requests. Allowance resets in - minutes.")) ∧
    containsSeq "45".data (msg429 15).data = false :=
  ⟨rfl, rfl⟩

/-- C5 counterexample: a 500 response whose body is the JSON object with
no `error` field does not produce a fallback error value: `request`
panics at the `results["error"].(string)` type assertion. -/
theorem c5_counterexample :
    request 0 (.success 500 (.value (.obj []))) =
      .panic "interface conversion: error field is not a string" ∧
    (request 0 (.success 500 (.value (.obj [])))).isRet = false :=
  ⟨rfl, rfl⟩

/-- C5 (amended): for every response with status other than 200 and 429
whose body parses to a JSON object in which the `error` field is absent
or bound to a non-string value, `request` does not return a fallback
error: it panics at the `results["error"].(string)` type assertion, so
the error branch is not total. -/
theorem c5_amended (status minute : Nat) (fields : List (String × Json))
    (h200 : status ≠ 200) (h429 : status ≠ 429)
    (herr : isStrOpt (lookupLast fields "error") = false) :
    request minute (.success status (.value (.obj fields))) =
      .panic "interface conversion: error field is not a string" := by
  have h1 : (status == 429) = false := by simp [h429]
  have h2 : (status != 200) = true := by simp [h200]
  rcases hE : lookupLast fields "error" with _ | j
  · simp [request, h1, h2, hE]
  · cases j <;> simp_all [request, isStrOpt, h1, h2]

/-- C5 witness: status 500 with the empty JSON object body. -/
theorem c5_amended_witness :
    request 0 (.success 500 (.value (.obj []))) =
      .panic "interface conversion: error field is not a string" :=
  c5_amended 500 0 [] (by decide) (by decide) rfl

/-- C6 counterexample: for the endpoint `Assets` and a 200 response whose
result payload is `{}` (an object where an array of assets is expected),
the decode fails, yet `Assets` silently returns the zero value and a nil
error, because the source discards the `json.Unmarshal` return value. -/
theorem c6_counterexample :
    (decListT decAsset Asset.zero "[]cryptowatch.Asset" (.obj []) []).2 =
      some "json: cannot unmarshal object into Go value of type []cryptowatch.Asset" ∧
    Assets 0 (.success 200 (.value (.obj [("result", .obj [])]))) = .ret ([], none) :=
  ⟨rfl, rfl⟩

/-- C6 (amended): for every endpoint function except `Assets` and every
200 response whose extracted result payload does not match the declared shape
of the endpoint (that is, the structural decode of the payload reports an
error), the function surfaces that decode error to the caller instead of
silently returning a zero value with a nil error. `Assets` discards the
decode error and silently returns the zero value (see the
counterexample). -/
theorem c6_amended :
    (∀ (a : String) (minute : Nat) (h : HttpOutcome) (j : Json) (e : String),
      request minute h = .ret (some j, none) →
      (decDetailedAsset j DetailedAsset.zero).2 = some e →
      AssetMarkets a minute h =
        .ret ((decDetailedAsset j DetailedAsset.zero).1, some (.decode e))) ∧
    (∀ (minute : Nat) (h : HttpOutcome) (j : Json) (e : String),
      request minute h = .ret (some j, none) →
      (decListT decPair Pair.zero "[]cryptowatch.Pair" j []).2 = some e →
      Pairs minute h =
        .ret ((decListT decPair Pair.zero "[]cryptowatch.Pair" j []).1, some (.decode e))) ∧
    (∀ (a : String) (minute : Nat) (h : HttpOutcome) (j : Json) (e : String),
      request minute h = .ret (some j, none) →
      (decPairMarket j PairMarket.zero).2 = some e →
      PairMarkets a minute h =
        .ret ((decPairMarket j PairMarket.zero).1, some (.decode e))) ∧
    (∀ (minute : Nat) (h : HttpOutcome) (j : Json) (e : String),
      request minute h = .ret (some j, none) →
      (decListT decGeneralExchange GeneralExchange.zero "[]cryptowatch.GeneralExchange" j []).2 = some e →
      Exchanges minute h =
        .ret ((decListT decGeneralExchange GeneralExchange.zero "[]cryptowatch.GeneralExchange" j []).1,
          some (.decode e))) ∧
    (∀ (a : String) (minute : Nat) (h : HttpOutcome) (j : Json) (e : String),
      request minute h = .ret (some j, none) →
      (decDetailedExchange j DetailedExchange.zero).2 = some e →
      Exchange a minute h =
        .ret ((decDetailedExchange j DetailedExchange.zero).1, some (.decode e))) ∧
    (∀ (minute : Nat) (h : HttpOutcome) (j : Json) (e : String),
      request minute h = .ret (some j, none) →
      (decListT decGeneralMarket GeneralMarket.zero "[]cryptowatch.GeneralMarket" j []).2 = some e →
      Markets minute h =
        .ret ((decListT decGeneralMarket GeneralMarket.zero "[]cryptowatch.GeneralMarket" j []).1,
          some (.decode e))) ∧
    (∀ (a b : String) (minute : Nat) (h : HttpOutcome) (j : Json) (e : String),
      request minute h = .ret (some j, none) →
      (decDetailedMarket j DetailedMarket.zero).2 = some e →
      Market a b minute h =
        .ret ((decDetailedMarket j DetailedMarket.zero).1, some (.decode e))) ∧
    (∀ (a b : String) (minute : Nat) (h : HttpOutcome) (j : Json) (e : String),
      request minute h = .ret (some j, none) →
      (decMapFloat j []).2 = some e →
      MarketPrice a b minute h = .ret (0, some (.decode e))) ∧
    (∀ (a b : String) (minute : Nat) (h : HttpOutcome) (j : Json) (e : String),
      request minute h = .ret (some j, none) →
      (decSummary j Summary.zero).2 = some e →
      MarketSummary a b minute h =
        .ret ((decSummary j Summary.zero).1, some (.decode e))) ∧
    (∀ (a b : String) (minute : Nat) (h : HttpOutcome) (j : Json) (e : String),
      request minute h = .ret (some j, none) →
      (decListT decTrade [] "[]cryptowatch.Trade" j []).2 = some e →
      Trades a b minute h =
        .ret ((decListT decTrade [] "[]cryptowatch.Trade" j []).1, some (.decode e))) ∧
    (∀ (a b : String) (minute : Nat) (h : HttpOutcome) (j : Json) (e : String),
      request minute h = .ret (some j, none) →
      (decMarketOrderBook j MarketOrderBook.zero).2 = some e →
      OrderBook a b minute h =
        .ret ((decMarketOrderBook j MarketOrderBook.zero).1, some (.decode e))) ∧
    (∀ (a b : String) (minute : Nat) (h : HttpOutcome) (j : Json) (e : String),
      request minute h = .ret (some j, none) →
      (decOHLC j []).2 = some e →
      Ohlc a b minute h = .ret ((decOHLC j []).1, some (.decode e))) ∧
    (∀ (minute : Nat) (h : HttpOutcome) (j : Json) (e : String),
      request minute h = .ret (some j, none) →
      (decMapFloat j []).2 = some e →
      AggregratePrices minute h = .ret ((decMapFloat j []).1, some (.decode e))) ∧
    (∀ (minute : Nat) (h : HttpOutcome) (j : Json) (e : String),
      request minute h = .ret (some j, none) →
      (decAggregrateSummary j []).2 = some e →
      AggregrateSummaries minute h =
        .ret ((decAggregrateSummary j []).1, some (.decode e))) := by
  refine ⟨?_, ?_, ?_, ?_, ?_, ?_, ?_, ?_, ?_, ?_, ?_, ?_, ?_, ?_⟩
  · intro a minute h j e hreq hdec
    unfold AssetMarkets
    rw [hreq]
    simp [hdec]
  · intro minute h j e hreq hdec
    unfold Pairs
    rw [hreq]
    simp [hdec]
  · intro a minute h j e hreq hdec
    unfold PairMarkets
    rw [hreq]
    simp [hdec]
  · intro minute h j e hreq hdec
    unfold Exchanges
    rw [hreq]
    simp [hdec]
  · intro a minute h j e hreq hdec
    unfold Exchange
    rw [hreq]
    simp [hdec]
  · intro minute h j e hreq hdec
    unfold Markets
    rw [hreq]
    simp [hdec]
  · intro a b minute h j e hreq hdec
    unfold Market
    rw [hreq]
    simp [hdec]
  · intro a b minute h j e hreq hdec
    unfold MarketPrice
    rw [hreq]
    simp [hdec]
  · intro a b minute h j e hreq hdec
    unfold MarketSummary
    rw [hreq]
    simp [hdec]
  · intro a b minute h j e hreq hdec
    unfold Trades
    rw [hreq]
    simp [hdec]
  · intro a b minute h j e hreq hdec
    unfold OrderBook
    rw [hreq]
    simp [hdec]
  · intro a b minute h j e hreq hdec
    unfold Ohlc
    rw [hreq]
    simp [hdec]
  · intro minute h j e hreq hdec
    unfold AggregratePrices
    rw [hreq]
    simp [hdec]
  · intro minute h j e hreq hdec
    unfold AggregrateSummaries
    rw [hreq]
    simp [hdec]

/-- C6 witness: `AssetMarkets` surfacing the decode error on a 200
response whose result payload is `[]` where an object was expected. -/
theorem c6_amended_witness :
    AssetMarkets "btc" 0 (.success 200 (.value (.obj [("result", .arr [])]))) =
      .ret (DetailedAsset.zero,
        some (.decode "json: cannot unmarshal array into Go value of type cryptowatch.DetailedAsset")) :=
  c6_amended.1 "btc" 0 (.success 200 (.value (.obj [("result", .arr [])]))) (.arr [])
    "json: cannot unmarshal array into Go value of type cryptowatch.DetailedAsset" rfl rfl

/-- C7 counterexample: a 200 response whose result payload is
`(symbol "abc", fiat 7)` makes `AssetMarkets` return a partially decoded
non-zero result (symbol already set to "abc") together with a non-nil
decode error: `json.Unmarshal` fills the well-typed fields before
reporting the type error, so a partial-success outcome exists. -/
theorem c7_counterexample :
    AssetMarkets "btc" 0 (.success 200 (.value (.obj
        [("result", .obj [("symbol", .str "abc"), ("fiat", .num 7)])]))) =
      .ret (⟨0, "abc", "", false, DAMarkets.zero⟩,
        some (.decode "json: cannot unmarshal number into Go value of type bool")) ∧
    (⟨0, "abc", "", false, DAMarkets.zero⟩ : DetailedAsset) ≠ DetailedAsset.zero :=
  ⟨rfl, by decide⟩

/-- C7 (amended): for every endpoint function, whenever the underlying
`request` call itself returns an error (and hence a nil payload), the
endpoint returns the zero value of its result type together with that
error; when instead the decode step of the endpoint itself of a received payload
fails, the result may be partially decoded (see the counterexample), so
the no-partial-success property holds only for request-level errors. -/
theorem c7_amended :
    (∀ (minute : Nat) (hh : HttpOutcome) (e : GoErr),
      request minute hh = .ret (none, some e) →
      Assets minute hh = .ret ([], some e)) ∧
    (∀ (a : String) (minute : Nat) (hh : HttpOutcome) (e : GoErr),
      request minute hh = .ret (none, some e) →
      AssetMarkets a minute hh = .ret (DetailedAsset.zero, some e)) ∧
    (∀ (minute : Nat) (hh : HttpOutcome) (e : GoErr),
      request minute hh = .ret (none, some e) →
      Pairs minute hh = .ret ([], some e)) ∧
    (∀ (a : String) (minute : Nat) (hh : HttpOutcome) (e : GoErr),
      request minute hh = .ret (none, some e) →
      PairMarkets a minute hh = .ret (PairMarket.zero, some e)) ∧
    (∀ (minute : Nat) (hh : HttpOutcome) (e : GoErr),
      request minute hh = .ret (none, some e) →
      Exchanges minute hh = .ret ([], some e)) ∧
    (∀ (a : String) (minute : Nat) (hh : HttpOutcome) (e : GoErr),
      request minute hh = .ret (none, some e) →
      Exchange a minute hh = .ret (DetailedExchange.zero, some e)) ∧
    (∀ (minute : Nat) (hh : HttpOutcome) (e : GoErr),
      request minute hh = .ret (none, some e) →
      Markets minute hh = .ret ([], some e)) ∧
    (∀ (a b : String) (minute : Nat) (hh : HttpOutcome) (e : GoErr),
      request minute hh = .ret (none, some e) →
      Market a b minute hh = .ret (DetailedMarket.zero, some e)) ∧
    (∀ (a b : String) (minute : Nat) (hh : HttpOutcome) (e : GoErr),
      request minute hh = .ret (none, some e) →
      MarketPrice a b minute hh = .ret (0, some e)) ∧
    (∀ (a b : String) (minute : Nat) (hh : HttpOutcome) (e : GoErr),
      request minute hh = .ret (none, some e) →
      MarketSummary a b minute hh = .ret (Summary.zero, some e)) ∧
    (∀ (a b : String) (minute : Nat) (hh : HttpOutcome) (e : GoErr),
      request minute hh = .ret (none, some e) →
      Trades a b minute hh = .ret ([], some e)) ∧
    (∀ (a b : String) (minute : Nat) (hh : HttpOutcome) (e : GoErr),
      request minute hh = .ret (none, some e) →
      OrderBook a b minute hh = .ret (MarketOrderBook.zero, some e)) ∧
    (∀ (a b : String) (minute : Nat) (hh : HttpOutcome) (e : GoErr),
      request minute hh = .ret (none, some e) →
      Ohlc a b minute hh = .ret ([], some e)) ∧
    (∀ (minute : Nat) (hh : HttpOutcome) (e : GoErr),
      request minute hh = .ret (none, some e) →
      AggregratePrices minute hh = .ret ([], some e)) ∧
    (∀ (minute : Nat) (hh : HttpOutcome) (e : GoErr),
      request minute hh = .ret (none, some e) →
      AggregrateSummaries minute hh = .ret ([], some e)) := by
  refine ⟨?_, ?_, ?_, ?_, ?_, ?_, ?_, ?_, ?_, ?_, ?_, ?_, ?_, ?_, ?_⟩
  · intro minute hh e hreq
    unfold Assets
    rw [hreq]
  · intro a minute hh e hreq
    unfold AssetMarkets
    rw [hreq]
  · intro minute hh e hreq
    unfold Pairs
    rw [hreq]
  · intro a minute hh e hreq
    unfold PairMarkets
    rw [hreq]
  · intro minute hh e hreq
    unfold Exchanges
    rw [hreq]
  · intro a minute hh e hreq
    unfold Exchange
    rw [hreq]
  · intro minute hh e hreq
    unfold Markets
    rw [hreq]
  · intro a b minute hh e hreq
    unfold Market
    rw [hreq]
  · intro a b minute hh e hreq
    unfold MarketPrice
    rw [hreq]
  · intro a b minute hh e hreq
    unfold MarketSummary
    rw [hreq]
  · intro a b minute hh e hreq
    unfold Trades
    rw [hreq]
  · intro a b minute hh e hreq
    unfold OrderBook
    rw [hreq]
  · intro a b minute hh e hreq
    unfold Ohlc
    rw [hreq]
  · intro minute hh e hreq
    unfold AggregratePrices
    rw [hreq]
  · intro minute hh e hreq
    unfold AggregrateSummaries
    rw [hreq]

/-- C7 witness: a transport failure makes `Assets` return the empty slice
and that transport error. -/
theorem c7_amended_witness :
    Assets 0 (.netErr "connection refused") = .ret ([], some (.transport "connection refused")) :=
  c7_amended.1 0 (.netErr "connection refused") (.transport "connection refused") rfl

/-- C8: `AssetMarkets("btc")` targets exactly base ++ "assets/btc" and
`Market("gdax","ethbtc")` targets exactly base ++ "markets/gdax/ethbtc";
in general the URL of every endpoint is its fixed path template with the
string arguments substituted in order. -/
theorem c8_urls :
    AssetMarkets_url "btc" = "https://api.cryptowat.ch/assets/btc" ∧
    Market_url "gdax" "ethbtc" = "https://api.cryptowat.ch/markets/gdax/ethbtc" ∧
    Assets_url = base ++ "assets" ∧
    (∀ a, AssetMarkets_url a = base ++ "assets/" ++ a) ∧
    Pairs_url = base ++ "pairs" ∧
    (∀ a, PairMarkets_url a = base ++ "pairs/" ++ a) ∧
    Exchanges_url = base ++ "exchanges" ∧
    (∀ a, Exchange_url a = base ++ "exchanges/" ++ a) ∧
    Markets_url = base ++ "markets" ∧
    (∀ e p, Market_url e p = base ++ "markets/" ++ e ++ "/" ++ p) ∧
    (∀ e p, MarketPrice_url e p = base ++ "markets/" ++ e ++ "/" ++ p ++ "/price") ∧
    (∀ e p, MarketSummary_url e p = base ++ "markets/" ++ e ++ "/" ++ p ++ "/summary") ∧
    (∀ e p, Trades_url e p = base ++ "markets/" ++ e ++ "/" ++ p ++ "/trades") ∧
    (∀ e p, OrderBook_url e p = base ++ "markets/" ++ e ++ "/" ++ p ++ "/orderbook") ∧
    (∀ e p, Ohlc_url e p = base ++ "markets/" ++ e ++ "/" ++ p ++ "/ohlc") ∧
    AggregratePrices_url = base ++ "markets/prices" ∧
    AggregrateSummaries_url = base ++ "markets/summaries" := by
  refine ⟨rfl, rfl, rfl, ?_, rfl, ?_, rfl, ?_, rfl, ?_, ?_, ?_, ?_, ?_, ?_, rfl, rfl⟩
  · intro a
    obtain ⟨l⟩ := a
    apply strmkCong
    simp [AssetMarkets_url, goSprintf, indexes, indexesList, getA, base, substVerbs, extraTail]
  · intro a
    obtain ⟨l⟩ := a
    apply strmkCong
    simp [PairMarkets_url, goSprintf, indexes, indexesList, getA, base, substVerbs, extraTail]
  · intro a
    obtain ⟨l⟩ := a
    apply strmkCong
    simp [Exchange_url, goSprintf, indexes, indexesList, getA, base, substVerbs, extraTail]
  · intro e p
    obtain ⟨le⟩ := e
    obtain ⟨lp⟩ := p
    apply strmkCong
    simp [Market_url, goSprintf, indexes, indexesList, getA, base, substVerbs, extraTail]
  · intro e p
    obtain ⟨le⟩ := e
    obtain ⟨lp⟩ := p
    apply strmkCong
    simp [MarketPrice_url, goSprintf, indexes, indexesList, getA, base, substVerbs, extraTail]
  · intro e p
    obtain ⟨le⟩ := e
    obtain ⟨lp⟩ := p
    apply strmkCong
    simp [MarketSummary_url, goSprintf, indexes, indexesList, getA, base, substVerbs, extraTail]
  · intro e p
    obtain ⟨le⟩ := e
    obtain ⟨lp⟩ := p
    apply strmkCong
    simp [Trades_url, goSprintf, indexes, indexesList, getA, base, substVerbs, extraTail]
  · intro e p
    obtain ⟨le⟩ := e
    obtain ⟨lp⟩ := p
    apply strmkCong
    simp [OrderBook_url, goSprintf, indexes, indexesList, getA, base, substVerbs, extraTail]
  · intro e p
    obtain ⟨le⟩ := e
    obtain ⟨lp⟩ := p
    apply strmkCong
    simp [Ohlc_url, goSprintf, indexes, indexesList, getA, base, substVerbs, extraTail]

/-- C9: `MarketPrice("gdax","ethbtc")` on a 200 response with body
binding "result" to an object binding "price" to 6321.5 returns 6321.5
and a nil error. -/
theorem c9_market_price :
    MarketPrice "gdax" "ethbtc" 0
      (.success 200 (.value (.obj [("result", .obj [("price", .num (6321.5 : ℚ))])]))) =
      .ret ((6321.5 : ℚ), none) :=
  rfl

/-- C10: for every 200 response whose result payload is a JSON object of
numeric fields without a "price" key, `MarketPrice` returns 0 with a nil
error — indistinguishable from a market whose last price is 0. -/
theorem c10_missing_price_key_zero (e p : String) (minute : Nat)
    (fields rfields : List (String × Json))
    (hres : lookupLast fields "result" = some (.obj rfields))
    (hnum : rfields.all (fun kv => kv.2.isNumB) = true)
    (hkey : rfields.all (fun kv => kv.1 != "price") = true) :
    MarketPrice e p minute (.success 200 (.value (.obj fields))) = .ret (0, none) := by
  have hnum2 : ∀ kv ∈ rfields, Json.isNumB kv.2 = true := fun kv hm =>
    List.all_eq_true.mp hnum kv hm
  have hkey2 : ∀ kv ∈ rfields, kv.1 ≠ "price" := by
    intro kv hm
    simpa using List.all_eq_true.mp hkey kv hm
  have hLnum : ∀ kv ∈ sortDedup (canonFields rfields), (decFloat kv.2 (0 : ℚ)).2 = none := by
    intro kv hm
    rcases mem_canonFields (mem_sortDedup hm) with ⟨v0, hv0, hc⟩
    have hb := hnum2 (kv.1, v0) hv0
    cases v0 <;> simp [Json.isNumB] at hb
    rw [hc]
    rfl
  have hLkey : ∀ kv ∈ sortDedup (canonFields rfields), kv.1 ≠ "price" := by
    intro kv hm
    rcases mem_canonFields (mem_sortDedup hm) with ⟨v0, hv0, _⟩
    exact hkey2 (kv.1, v0) hv0
  have hreq : request minute (.success 200 (.value (.obj fields))) =
      .ret (some (.obj (sortDedup (canonFields rfields))), none) := by
    simp [request, hres, canon]
  have hsnd : (decMapFloat (.obj (sortDedup (canonFields rfields))) []).2 = none := by
    simp only [decMapFloat, decMapT]
    exact foldl_decMapStep_snd decFloat 0 hLnum
  have hget : getA (decMapFloat (.obj (sortDedup (canonFields rfields))) []).1 "price" = none := by
    simp only [decMapFloat, decMapT]
    rw [getA_foldl_decMapStep decFloat 0 hLkey]
    rfl
  unfold MarketPrice
  rw [hreq]
  simp [hsnd, hget]

/-- C10 witness: the empty result object yields 0 with a nil error. -/
theorem c10_missing_price_key_zero_witness :
    MarketPrice "gdax" "ethbtc" 0 (.success 200 (.value (.obj [("result", .obj [])]))) =
      .ret (0, none) :=
  c10_missing_price_key_zero "gdax" "ethbtc" 0 [("result", .obj [])] [] rfl rfl rfl

end Cryptowatch

